import Mathlib

/-
Shallow embedding of src/main.py, a FastAPI websocket notification relay.

Connections (websockets) are identified by a natural number; topics (the
source's table ids) are strings.  A Python dict is an association list with
unique keys kept in insertion order; a Python list is a Lean list.  A Python
exception is a value of PyErr threaded through Except.  An awaited send
either succeeds or raises, decided per connection by an environment
parameter fails : Conn -> Bool.
-/

abbrev Conn := Nat

abbrev Topic := String

/-- Exceptions raised by the embedded code: ValueError from list.remove on an
absent element, a transport failure from send_json, the graceful
WebSocketDisconnect from receive_text, and KeyError from set.pop on an empty
set. -/
inductive PyErr
  | valueError
  | sendFailure (c : Conn)
  | webSocketDisconnect
  | keyError
  deriving DecidableEq, Repr

/-- Python membership test id in d for a dict given as an association list. -/
def dictMem : List (Topic × List Conn) → Topic → Bool
  | [], _ => false
  | (k, _) :: rest, id => k == id || dictMem rest id

/-- Python read d[id]: the value of the first (hence only) entry with the key;
[] when the key is absent (the source only reads a key after a membership
test). -/
def dictGet : List (Topic × List Conn) → Topic → List Conn
  | [], _ => []
  | (k, v) :: rest, id => if k == id then v else dictGet rest id

/-- In-place mutation of an existing key, d[id] = f d[id]. -/
def dictUpdate (f : List Conn → List Conn) :
    List (Topic × List Conn) → Topic → List (Topic × List Conn)
  | [], _ => []
  | (k, v) :: rest, id =>
    if k == id then (k, f v) :: rest else (k, v) :: dictUpdate f rest id

/-- State of the single SubscriptionConnectionManager instance
(src/main.py lines 10-65): the connection registry active_connections, the
subscription index subscriptions, and the pending-change list pending_notify. -/
structure Manager where
  active_connections : List Conn
  subscriptions : List (Topic × List Conn)
  pending_notify : List Topic
  deriving DecidableEq, Repr

/-- The manager state at process start (lines 11-12, 31-37). -/
def initialManager : Manager := ⟨[], [], []⟩

/-- Embeds ConnectionManager.connect (lines 14-17): accept the handshake and
append the websocket to the registry. -/
def connect (m : Manager) (websocket : Conn) : Manager :=
  { m with active_connections := m.active_connections ++ [websocket] }

/-- Embeds ConnectionManager.disconnect (lines 19-20):
self.active_connections.remove(websocket) removes the first occurrence and
raises ValueError when the websocket is not registered. -/
def disconnect (m : Manager) (websocket : Conn) : Except PyErr Manager :=
  if websocket ∈ m.active_connections then
    Except.ok { m with active_connections := m.active_connections.erase websocket }
  else
    Except.error PyErr.valueError

/-- Embeds one for-loop of awaited send_json calls (lines 26-27 and 48-49):
sends in list order; the source has no try/except around the loop, so the
first raising send propagates and the remaining connections are not
attempted.  Returns the connections actually sent to, and the propagated
exception if any. -/
def sendSeq (fails : Conn → Bool) : List Conn → List Conn × Option PyErr
  | [] => ([], none)
  | c :: rest =>
    if fails c then ([], some (PyErr.sendFailure c))
    else
      let r := sendSeq fails rest
      (c :: r.1, r.2)

/-- Embeds ConnectionManager.broadcast_all (lines 25-27). -/
def broadcast_all (fails : Conn → Bool) (m : Manager) : List Conn × Option PyErr :=
  sendSeq fails m.active_connections

/-- Embeds SubscriptionConnectionManager.subscribe_to (lines 39-44): append
the websocket to the topic's list when the key exists, otherwise insert a new
singleton entry (a new dict key goes at the end, in insertion order). -/
def subscribe_to (m : Manager) (websocket : Conn) (id : Topic) : Manager :=
  if dictMem m.subscriptions id then
    { m with subscriptions := dictUpdate (fun l => l ++ [websocket]) m.subscriptions id }
  else
    { m with subscriptions := m.subscriptions ++ [(id, [websocket])] }

/-- Embeds SubscriptionConnectionManager.broadcast_to (lines 46-49): when the
topic key exists, send to its subscriber list in order; otherwise do
nothing. -/
def broadcast_to (fails : Conn → Bool) (m : Manager) (id : Topic) :
    List Conn × Option PyErr :=
  if dictMem m.subscriptions id then sendSeq fails (dictGet m.subscriptions id)
  else ([], none)

/-- Embeds SubscriptionConnectionManager.unsubscribe_from (lines 51-53): when
the topic key exists, self.subscriptions[id].remove(websocket) removes the
first occurrence and raises ValueError when the websocket is not in the
list; when the key is absent the call does nothing. -/
def unsubscribe_from (m : Manager) (websocket : Conn) (id : Topic) :
    Except PyErr Manager :=
  if dictMem m.subscriptions id then
    if websocket ∈ dictGet m.subscriptions id then
      Except.ok { m with subscriptions := dictUpdate (fun l => l.erase websocket) m.subscriptions id }
    else
      Except.error PyErr.valueError
  else
    Except.ok m

/-- Embeds one poll of SubscriptionConnectionManager.wait_for_changes
(lines 55-59): some m means the test id in self.pending_notify succeeded,
self.pending_notify.remove(id) dropped the first occurrence and the call
returned; none means the call sleeps 0.3 s and polls again with the state
unchanged (the call keeps suspending until some other task marks the topic). -/
def waitPoll (m : Manager) (id : Topic) : Option Manager :=
  if id ∈ m.pending_notify then
    some { m with pending_notify := m.pending_notify.erase id }
  else
    none

/-- Embeds SubscriptionConnectionManager.notify (lines 61-62):
self.pending_notify.append(id). -/
def notify (m : Manager) (id : Topic) : Manager :=
  { m with pending_notify := m.pending_notify ++ [id] }

/-- notify applied n times to the same topic. -/
def notifyN (m : Manager) (id : Topic) : Nat → Manager
  | 0 => m
  | n + 1 => notify (notifyN m id n) id

/-- Outcome recorded in a completed asyncio task: a result value, or a stored
exception that task.exception() reports and task.result() would re-raise. -/
inductive TaskOutcome (α : Type)
  | ok (a : α)
  | exn (e : PyErr)
  deriving DecidableEq, Repr

/-- Scheduling status of a task that did not complete. -/
inductive TaskStatus
  | running
  | cancelled
  deriving DecidableEq, Repr

/-- Embeds wait_first (lines 68-84) after asyncio.wait returned the completed
tasks done (given by their outcomes, nonempty in every reachable call) and
the still-pending tasks pending (given by their statuses, all running).
Lines 73-76 scan done and re-raise the first stored exception; that raise
happens before lines 78-83, so on this path the pending tasks keep their
statuses untouched.  Otherwise lines 78-83 cancel every pending task and
await the cancellation, and line 84 returns the completed task's result. -/
def wait_first {α : Type} (done : List (TaskOutcome α)) (pending : List TaskStatus) :
    Except PyErr α × List TaskStatus :=
  match done.findSome? (fun t => match t with
      | TaskOutcome.exn e => some e
      | TaskOutcome.ok _ => none) with
  | some e => (Except.error e, pending)
  | none =>
    let pending1 := pending.map (fun _ => TaskStatus.cancelled)
    match done with
    | [] => (Except.error PyErr.keyError, pending1)
    | TaskOutcome.ok a :: _ => (Except.ok a, pending1)
    | TaskOutcome.exn e :: _ => (Except.error e, pending1)

/-- Helper: a key the membership test rejects reads as the empty list. -/
theorem dictGet_of_dictMem_false (d : List (Topic × List Conn)) (id : Topic)
    (h : dictMem d id = false) : dictGet d id = [] := by
  induction d with
  | nil => rfl
  | cons e rest ih =>
    obtain ⟨k, v⟩ := e
    simp only [dictMem, Bool.or_eq_false_iff] at h
    simp [dictGet, h.1, ih h.2]

/-- Helper: membership of a connection in a key's list forces the key to be
present. -/
theorem dictMem_of_mem_dictGet (d : List (Topic × List Conn)) (id : Topic)
    (w : Conn) (h : w ∈ dictGet d id) : dictMem d id = true := by
  by_contra hf
  rw [dictGet_of_dictMem_false d id (by simpa using hf)] at h
  simp at h

/-- Helper: updating a present key rewrites exactly that key's list. -/
theorem dictGet_dictUpdate_self (f : List Conn → List Conn)
    (d : List (Topic × List Conn)) (id : Topic) (h : dictMem d id = true) :
    dictGet (dictUpdate f d id) id = f (dictGet d id) := by
  induction d with
  | nil => simp [dictMem] at h
  | cons e rest ih =>
    obtain ⟨k, v⟩ := e
    by_cases hk : k == id
    · simp [dictUpdate, dictGet, hk]
    · simp only [dictMem, hk, Bool.false_or] at h
      simp [dictUpdate, dictGet, hk, ih h]

/-- Helper: updating a key leaves every other key's list unchanged. -/
theorem dictGet_dictUpdate_ne (f : List Conn → List Conn)
    (d : List (Topic × List Conn)) (id k : Topic) (h : k ≠ id) :
    dictGet (dictUpdate f d id) k = dictGet d k := by
  induction d with
  | nil => rfl
  | cons e rest ih =>
    obtain ⟨k0, v⟩ := e
    by_cases hk : k0 == id
    · have hk' : k0 = id := by simpa using hk
      have hk0 : (k0 == k) = false := by
        simp only [beq_eq_false_iff_ne, hk']
        exact fun hkk => h hkk.symm
      simp [dictUpdate, hk, dictGet, hk0]
    · simp [dictUpdate, hk, dictGet, ih]

/-- Helper: inserting a fresh key at the end makes it readable. -/
theorem dictGet_append_fresh (d : List (Topic × List Conn)) (id : Topic)
    (v : List Conn) (h : dictMem d id = false) :
    dictGet (d ++ [(id, v)]) id = v := by
  induction d with
  | nil => simp [dictGet]
  | cons e rest ih =>
    obtain ⟨k, w⟩ := e
    simp only [dictMem, Bool.or_eq_false_iff] at h
    simp [dictGet, h.1, ih h.2]

/-- Helper: after subscribe_to, the topic's subscriber list is the old one
with the websocket appended. -/
theorem dictGet_subscribe_to (m : Manager) (w : Conn) (id : Topic) :
    dictGet (subscribe_to m w id).subscriptions id = dictGet m.subscriptions id ++ [w] := by
  by_cases h : dictMem m.subscriptions id
  · simp [subscribe_to, h, dictGet_dictUpdate_self _ _ _ h]
  · have h' : dictMem m.subscriptions id = false := by simpa using h
    rw [show (subscribe_to m w id).subscriptions = m.subscriptions ++ [(id, [w])] from by
      simp [subscribe_to, h']]
    rw [dictGet_append_fresh m.subscriptions id [w] h',
      dictGet_of_dictMem_false m.subscriptions id h']
    rfl

/-- Helper: a run of sends delivers to the longest prefix of connections that
do not fail and propagates the first failure, if any. -/
theorem sendSeq_eq (fails : Conn → Bool) (l : List Conn) :
    sendSeq fails l
      = (l.takeWhile (fun c => !fails c), (l.find? fails).map PyErr.sendFailure) := by
  induction l with
  | nil => rfl
  | cons c rest ih =>
    by_cases hc : fails c
    · simp [sendSeq, hc, List.takeWhile_cons, List.find?_cons]
    · simp [sendSeq, hc, List.takeWhile_cons, List.find?_cons, ih]

/-- Helper: when no send fails, everyone in the list is delivered to. -/
theorem sendSeq_all_ok (l : List Conn) :
    sendSeq (fun _ => false) l = (l, none) := by
  induction l with
  | nil => rfl
  | cons c rest ih => simp [sendSeq, ih]

/-- Event that completes the race on line 102 first: the wait_for_changes
branch fires, receive_text yields a text frame, or receive_text raises
WebSocketDisconnect. -/
inductive WakeEvent
  | changed
  | textReceived (s : String)
  | disconnected
  deriving DecidableEq, Repr

/-- Observable outcome of one pass through the ws_tables_endpoint loop body
(lines 99-114): the manager state afterwards, the connections that received
the broadcast payload, whether the content step on line 106 ran, the status
of the race's losing task, and whether the loop exited through the except
handler. -/
structure StepResult where
  state : Manager
  deliveries : List Conn
  fetchedContent : Bool
  loserStatus : TaskStatus
  terminated : Bool
  deriving DecidableEq, Repr

/-- Embeds one iteration of the ws_tables_endpoint session loop
(lines 98-114) for a connection websocket serving topic id, driven by which
race branch completes first.  On WakeEvent.changed, wait_for_changes drained
one occurrence of id and wait_first cancelled receive_text; the body then
runs the content step and broadcast_to (a send failure propagates uncaught,
since it is not a WebSocketDisconnect).  On WakeEvent.textReceived,
wait_first returns the received text as its value with the loser cancelled,
and the body falls through to the same content and broadcast steps.  On
WakeEvent.disconnected, wait_first re-raises WebSocketDisconnect with the
loser still running; the except handler runs disconnect then
unsubscribe_from, either of which can itself raise ValueError. -/
def sessionStep (fails : Conn → Bool) (m : Manager) (websocket : Conn) (id : Topic) :
    WakeEvent → Except PyErr StepResult
  | WakeEvent.changed =>
    let m1 := { m with pending_notify := m.pending_notify.erase id }
    match broadcast_to fails m1 id with
    | (d, none) => Except.ok ⟨m1, d, true, TaskStatus.cancelled, false⟩
    | (_, some e) => Except.error e
  | WakeEvent.textReceived _ =>
    match broadcast_to fails m id with
    | (d, none) => Except.ok ⟨m, d, true, TaskStatus.cancelled, false⟩
    | (_, some e) => Except.error e
  | WakeEvent.disconnected =>
    match disconnect m websocket with
    | Except.error e => Except.error e
    | Except.ok m1 =>
      match unsubscribe_from m1 websocket id with
      | Except.error e => Except.error e
      | Except.ok m2 => Except.ok ⟨m2, [], false, TaskStatus.running, true⟩

/-- C1, counterexample: two notify calls for topic "T" before any drain do not
collapse into a single changed signal.  After one waiter drains once, "T" is
still pending, so a second wait_for_changes poll returns immediately: the
single blocked waiter wakes twice for N = 2 marks, not exactly once. -/
theorem C1_two_marks_two_wakes :
    waitPoll (notify (notify initialManager "T") "T") "T"
        = some (Manager.mk [] [] ["T"]) ∧
      waitPoll (Manager.mk [] [] ["T"]) "T" = some (Manager.mk [] [] []) :=
  ⟨rfl, rfl⟩

/-- Helper: notify appends, so n marks add n occurrences of the topic. -/
theorem count_notifyN (m : Manager) (id : Topic) (n : Nat) :
    ((notifyN m id n).pending_notify.count id) = m.pending_notify.count id + n := by
  induction n with
  | zero => rfl
  | succ k ih =>
    simp only [notifyN, notify, List.count_append, ih, List.count_singleton_self]
    omega

/-- Helper: notify never touches the registry or the subscription index. -/
theorem notifyN_frame (m : Manager) (id : Topic) (n : Nat) :
    (notifyN m id n).active_connections = m.active_connections ∧
      (notifyN m id n).subscriptions = m.subscriptions := by
  induction n with
  | zero => exact ⟨rfl, rfl⟩
  | succ k ih => simpa [notifyN, notify] using ih

/-- C1, amended: pending_notify is a list used as a multiset, not a set.
Calling notify n times (n at least 1) before any drain leaves n more
occurrences of the topic pending, and one wait_for_changes drain removes
exactly one of them, so the remaining n - 1 marks each produce a further
immediate wake of a blocked waiter: counting semantics, one wake per mark,
not one wake per drain cycle. -/
theorem C1_amended_counting (m : Manager) (id : Topic) (n : Nat) (h : 0 < n) :
    (notifyN m id n).pending_notify.count id = m.pending_notify.count id + n ∧
      ∃ m', waitPoll (notifyN m id n) id = some m' ∧
        m'.pending_notify.count id = m.pending_notify.count id + n - 1 := by
  refine ⟨count_notifyN m id n, ?_⟩
  have hmem : id ∈ (notifyN m id n).pending_notify := by
    rw [← List.count_pos_iff]
    rw [count_notifyN]
    omega
  refine ⟨{ notifyN m id n with
      pending_notify := (notifyN m id n).pending_notify.erase id }, ?_, ?_⟩
  · simp [waitPoll, hmem]
  · simp [List.count_erase_self, count_notifyN]

/-- C1, witness for the amended statement at n = 2 on the empty manager. -/
theorem C1_amended_counting_witness :
    (notifyN initialManager "T" 2).pending_notify.count "T" = 0 + 2 ∧
      ∃ m', waitPoll (notifyN initialManager "T" 2) "T" = some m' ∧
        m'.pending_notify.count "T" = 0 + 2 - 1 := by
  simpa using C1_amended_counting initialManager "T" 2 (by decide)

/-- C2, counterexample: when the first-completed branch holds an exception
(here the graceful WebSocketDisconnect from receive_text), wait_first
re-raises it on lines 73-76, before the cancellation code on lines 78-83
ever runs: the losing task is left running, not cancelled, after wait_first
raises. -/
theorem C2_loser_leaked_on_error :
    wait_first ([TaskOutcome.exn PyErr.webSocketDisconnect] : List (TaskOutcome String))
        [TaskStatus.running]
      = (Except.error PyErr.webSocketDisconnect, [TaskStatus.running]) :=
  rfl

/-- C2, amended: wait_first cancels and awaits the losing tasks only in the
value outcome; in the error outcome it raises the winner's exception before
reaching the cancellation code, so every pending task keeps its running
status and remains runnable after wait_first raises. -/
theorem C2_amended_cancellation {α : Type} (a : α) (e : PyErr)
    (pending : List TaskStatus) :
    wait_first [TaskOutcome.ok a] pending
        = (Except.ok a, pending.map (fun _ => TaskStatus.cancelled)) ∧
      wait_first ([TaskOutcome.exn e] : List (TaskOutcome α)) pending
        = (Except.error e, pending) :=
  ⟨rfl, rfl⟩

/-- C4, counterexample: subscribing connection 1 to topic "T" twice leaves the
subscriber list [1, 1], and a fanout with no send failures then delivers the
payload to connection 1 twice. -/
theorem C4_duplicate_subscription :
    dictGet (subscribe_to (subscribe_to initialManager 1 "T") 1 "T").subscriptions "T"
        = [1, 1] ∧
      (broadcast_to (fun _ => false)
          (subscribe_to (subscribe_to initialManager 1 "T") 1 "T") "T").1
        = [1, 1] :=
  ⟨rfl, rfl⟩

/-- C4, amended: subscribe_to is not idempotent.  It appends the websocket to
the topic's list unconditionally, so subscribing the same connection to the
same topic twice adds two entries for it, and each fanout then delivers the
payload to it once per entry. -/
theorem C4_amended_appends (m : Manager) (w : Conn) (id : Topic) :
    dictGet (subscribe_to (subscribe_to m w id) w id).subscriptions id
        = dictGet m.subscriptions id ++ [w, w] ∧
      (broadcast_to (fun _ => false) (subscribe_to (subscribe_to m w id) w id) id).1
        = dictGet m.subscriptions id ++ [w, w] := by
  have hlist : dictGet (subscribe_to (subscribe_to m w id) w id).subscriptions id
      = dictGet m.subscriptions id ++ [w, w] := by
    rw [dictGet_subscribe_to, dictGet_subscribe_to, List.append_assoc]
    rfl
  refine ⟨hlist, ?_⟩
  have hmem : dictMem (subscribe_to (subscribe_to m w id) w id).subscriptions id = true := by
    apply dictMem_of_mem_dictGet _ _ w
    rw [hlist]
    simp
  rw [broadcast_to, hmem, if_pos rfl, sendSeq_all_ok, hlist]

/-- C5, counterexample: teardown is not tolerant.  With connection 2 the only
subscriber of topic "T", unsubscribing the never-subscribed connection 1
raises ValueError (first conjunct); and after the state
Manager.mk [] [("T", [])] [] that one complete teardown of connection 1
produces (last two conjuncts), running the teardown a second time raises
ValueError from both disconnect and unsubscribe_from (middle conjuncts). -/
theorem C5_teardown_raises :
    unsubscribe_from (subscribe_to initialManager 2 "T") 1 "T"
        = Except.error PyErr.valueError ∧
      disconnect (Manager.mk [] [("T", [])] []) 1 = Except.error PyErr.valueError ∧
      unsubscribe_from (Manager.mk [] [("T", [])] []) 1 "T"
        = Except.error PyErr.valueError ∧
      disconnect (subscribe_to (connect initialManager 1) 1 "T") 1
        = Except.ok (Manager.mk [] [("T", [1])] []) ∧
      unsubscribe_from (Manager.mk [] [("T", [1])] []) 1 "T"
        = Except.ok (Manager.mk [] [("T", [])] []) :=
  ⟨rfl, rfl, rfl, rfl, rfl⟩

/-- C5, amended: unsubscribe_from is a silent no-op only when the topic has no
entry in the subscription index at all; when the topic's entry exists but
does not contain the connection, list.remove raises ValueError — so a second
run of the teardown step (disconnect, then unsubscribe_from) on the same
connection raises ValueError rather than being idempotent, and disconnect
likewise raises ValueError once the connection is no longer registered. -/
theorem C5_amended_teardown (m : Manager) (w : Conn) (id : Topic) :
    (dictMem m.subscriptions id = false → unsubscribe_from m w id = Except.ok m) ∧
      (dictMem m.subscriptions id = true → w ∉ dictGet m.subscriptions id →
        unsubscribe_from m w id = Except.error PyErr.valueError) ∧
      (w ∉ m.active_connections → disconnect m w = Except.error PyErr.valueError) := by
  refine ⟨fun h => ?_, fun h hw => ?_, fun hw => ?_⟩
  · simp [unsubscribe_from, h]
  · simp [unsubscribe_from, h, hw]
  · simp [disconnect, hw]

/-- C5, witness for the amended statement: the no-op case on the empty index,
the ValueError case with a foreign subscriber, and the ValueError case of an
unregistered disconnect. -/
theorem C5_amended_teardown_witness :
    unsubscribe_from initialManager 1 "T" = Except.ok initialManager ∧
      unsubscribe_from (Manager.mk [] [("T", [2])] []) 1 "T"
        = Except.error PyErr.valueError ∧
      disconnect initialManager 1 = Except.error PyErr.valueError := by
  refine ⟨(C5_amended_teardown initialManager 1 "T").1 rfl,
    (C5_amended_teardown (Manager.mk [] [("T", [2])] []) 1 "T").2.1 rfl (by decide),
    (C5_amended_teardown initialManager 1 "T").2.2 (by decide)⟩

/-- C6, counterexample: with connections 1 and 2 subscribed to topic "T" in
that order and the send to connection 1 failing, broadcast_to delivers to
nobody — connection 2, whose send would have succeeded, is never attempted —
and propagates the failure; broadcast_all on a registry [1, 2] behaves the
same way. -/
theorem C6_one_failure_aborts_fanout :
    broadcast_to (fun c => c == 1)
        (subscribe_to (subscribe_to initialManager 1 "T") 2 "T") "T"
      = ([], some (PyErr.sendFailure 1)) ∧
      broadcast_all (fun c => c == 1) (Manager.mk [1, 2] [] [])
        = ([], some (PyErr.sendFailure 1)) :=
  ⟨rfl, rfl⟩

/-- C6, amended: the fanout loops have no per-connection error handling, so
the first failing send aborts the remaining sends and its exception
propagates.  The connections that receive the payload are exactly the prefix
of the iteration order before the first failing connection, and the
propagated error is that first failing connection's, if any. -/
theorem C6_amended_abort (fails : Conn → Bool) (m : Manager) (id : Topic) :
    broadcast_all fails m
        = (m.active_connections.takeWhile (fun c => !fails c),
            (m.active_connections.find? fails).map PyErr.sendFailure) ∧
      broadcast_to fails m id
        = ((dictGet m.subscriptions id).takeWhile (fun c => !fails c),
            ((dictGet m.subscriptions id).find? fails).map PyErr.sendFailure) := by
  refine ⟨sendSeq_eq fails m.active_connections, ?_⟩
  by_cases h : dictMem m.subscriptions id
  · rw [broadcast_to, if_pos h, sendSeq_eq]
  · have h' : dictMem m.subscriptions id = false := by simpa using h
    rw [broadcast_to, dictGet_of_dictMem_false _ _ h']
    simp [h']

/-- C7: with no send failing, broadcast_to delivers the payload to exactly the
connections in the topic's subscriber list at fanout time and raises
nothing; hence a connection receives the payload exactly when it is
currently subscribed to that topic, a topic with no entry in the index is a
silent no-op, and a subscriber of a different topic is never delivered to. -/
theorem C7_broadcast_to_exact (m : Manager) (id : Topic) (c : Conn) :
    broadcast_to (fun _ => false) m id = (dictGet m.subscriptions id, none) ∧
      (c ∈ (broadcast_to (fun _ => false) m id).1 ↔ c ∈ dictGet m.subscriptions id) ∧
      (dictMem m.subscriptions id = false →
        broadcast_to (fun _ => false) m id = ([], none)) := by
  have hmain : broadcast_to (fun _ => false) m id = (dictGet m.subscriptions id, none) := by
    by_cases h : dictMem m.subscriptions id
    · rw [broadcast_to, if_pos h, sendSeq_all_ok]
    · have h' : dictMem m.subscriptions id = false := by simpa using h
      rw [broadcast_to, dictGet_of_dictMem_false _ _ h']
      simp [h']
  refine ⟨hmain, by rw [hmain], fun h => ?_⟩
  rw [hmain, dictGet_of_dictMem_false _ _ h]

/-- C7, witness: connection 1 subscribed to "T1" receives the fanout for "T1"
and nothing from the fanout for the unsubscribed topic "T2", which is a
silent no-op. -/
theorem C7_broadcast_to_exact_witness :
    broadcast_to (fun _ => false) (Manager.mk [1] [("T1", [1])] []) "T1"
        = ([1], none) ∧
      broadcast_to (fun _ => false) (Manager.mk [1] [("T1", [1])] []) "T2"
        = ([], none) :=
  ⟨(C7_broadcast_to_exact (Manager.mk [1] [("T1", [1])] []) "T1" 1).1,
    (C7_broadcast_to_exact (Manager.mk [1] [("T1", [1])] []) "T2" 1).2.2 rfl⟩

/-- C8, evaluation at the failing input: connection 1 is registered and
subscribed to "T1", nothing is pending, and the client sends the text frame
"hi".  The receive_text branch wins the race with a value, wait_first
returns it, and the loop body falls through to the content step and
broadcast_to: the content step runs (fetchedContent = true) and connection 1
receives a delivery — contradicting the source's own comment on
lines 100-101 that receive_text is used only to surface
WebSocketDisconnect. -/
theorem C8_text_triggers_broadcast :
    sessionStep (fun _ => false) (Manager.mk [1] [("T1", [1])] []) 1 "T1"
        (WakeEvent.textReceived "hi")
      = Except.ok (StepResult.mk (Manager.mk [1] [("T1", [1])] [])
          [1] true TaskStatus.cancelled false) :=
  rfl

/-- C3: the graceful-disconnect outcome.  When the winning branch holds
WebSocketDisconnect, wait_first propagates it as an error (first conjunct);
the session loop's except handler then removes the connection from the
registry and from the topic's subscriber list and terminates normally,
without running the content step or any broadcast for that wake. -/
theorem C3_disconnect_terminates (fails : Conn → Bool) (m : Manager)
    (w : Conn) (id : Topic)
    (hw : m.active_connections.count w = 1)
    (hs : (dictGet m.subscriptions id).count w = 1) :
    (wait_first ([TaskOutcome.exn PyErr.webSocketDisconnect] : List (TaskOutcome String))
        [TaskStatus.running]).1 = Except.error PyErr.webSocketDisconnect ∧
      ∃ r, sessionStep fails m w id WakeEvent.disconnected = Except.ok r ∧
        r.terminated = true ∧ r.fetchedContent = false ∧ r.deliveries = [] ∧
        w ∉ r.state.active_connections ∧ w ∉ dictGet r.state.subscriptions id := by
  refine ⟨rfl, ?_⟩
  have hwm : w ∈ m.active_connections := by
    rw [← List.count_pos_iff]
    omega
  have hsm : w ∈ dictGet m.subscriptions id := by
    rw [← List.count_pos_iff]
    omega
  have hdm : dictMem m.subscriptions id = true := dictMem_of_mem_dictGet _ _ _ hsm
  have hstep : sessionStep fails m w id WakeEvent.disconnected
      = Except.ok (StepResult.mk
          (Manager.mk (m.active_connections.erase w)
            (dictUpdate (fun l => l.erase w) m.subscriptions id)
            m.pending_notify)
          [] false TaskStatus.running true) := by
    simp [sessionStep, disconnect, unsubscribe_from, hwm, hsm, hdm]
  refine ⟨_, hstep, rfl, rfl, rfl, ?_, ?_⟩
  · show w ∉ m.active_connections.erase w
    exact List.count_eq_zero.mp (by rw [List.count_erase_self, hw])
  · show w ∉ dictGet (dictUpdate (fun l => l.erase w) m.subscriptions id) id
    rw [dictGet_dictUpdate_self _ _ _ hdm]
    exact List.count_eq_zero.mp (by rw [List.count_erase_self, hs])

/-- C3, witness: connection 1, registered and the sole subscriber of "T",
disconnects mid-wait; the session terminates without fetching or
broadcasting and the connection is gone from both structures. -/
theorem C3_disconnect_terminates_witness :
    (wait_first ([TaskOutcome.exn PyErr.webSocketDisconnect] : List (TaskOutcome String))
        [TaskStatus.running]).1 = Except.error PyErr.webSocketDisconnect ∧
      ∃ r, sessionStep (fun _ => false) (Manager.mk [1] [("T", [1])] []) 1 "T"
          WakeEvent.disconnected = Except.ok r ∧
        r.terminated = true ∧ r.fetchedContent = false ∧ r.deliveries = [] ∧
        1 ∉ r.state.active_connections ∧ 1 ∉ dictGet r.state.subscriptions "T" :=
  C3_disconnect_terminates (fun _ => false) (Manager.mk [1] [("T", [1])] []) 1 "T"
    (by decide) (by decide)

/-- C9: one wait_for_changes call returns only when the topic is pending —
while the topic is absent every poll comes back empty and the call keeps
suspending — and on return it has removed exactly one occurrence of the
topic from pending_notify, touching neither the registry, nor the
subscription index, nor any other topic's pending occurrences. -/
theorem C9_wait_drains_exactly_one (m : Manager) (id : Topic) :
    (id ∉ m.pending_notify → waitPoll m id = none) ∧
      (id ∈ m.pending_notify →
        ∃ m', waitPoll m id = some m' ∧
          m'.active_connections = m.active_connections ∧
          m'.subscriptions = m.subscriptions ∧
          m'.pending_notify.count id + 1 = m.pending_notify.count id ∧
          ∀ t, t ≠ id → m'.pending_notify.count t = m.pending_notify.count t) := by
  refine ⟨fun h => by simp [waitPoll, h], fun h => ?_⟩
  refine ⟨{ m with pending_notify := m.pending_notify.erase id },
    by simp [waitPoll, h], rfl, rfl, ?_, ?_⟩
  · have hpos : 0 < m.pending_notify.count id := List.count_pos_iff.mpr h
    simp only [List.count_erase_self]
    omega
  · intro t ht
    exact List.count_erase_of_ne ht m.pending_notify

/-- C9, witness: polling for "T" with only "U" pending suspends; polling with
pending list ["T", "U", "T"] returns at once having removed one of the two
occurrences of "T" and left "U" alone. -/
theorem C9_wait_drains_exactly_one_witness :
    waitPoll (Manager.mk [] [] ["U"]) "T" = none ∧
      ∃ m', waitPoll (Manager.mk [] [] ["T", "U", "T"]) "T" = some m' ∧
        m'.active_connections = [] ∧ m'.subscriptions = [] ∧
        m'.pending_notify.count "T" + 1 = (["T", "U", "T"] : List Topic).count "T" ∧
        ∀ t, t ≠ "T" → m'.pending_notify.count t
          = (["T", "U", "T"] : List Topic).count t := by
  refine ⟨(C9_wait_drains_exactly_one (Manager.mk [] [] ["U"]) "T").1 (by decide), ?_⟩
  exact (C9_wait_drains_exactly_one (Manager.mk [] [] ["T", "U", "T"]) "T").2 (by decide)

/-- C10: a mark recorded with no waiter blocked is never discarded.  After
notify the topic is pending; subscribe_to, unsubscribe_from, connect and
disconnect all leave pending_notify untouched, so the mark survives any
amount of later connection traffic (in particular a connection that
subscribes only after the mark); the next wait_for_changes call then
returns on its very first poll, without suspending, consuming exactly one
occurrence; and a session woken by that drain runs the content step. -/
theorem C10_stale_mark_persists (m : Manager) (t : Topic) :
    t ∈ (notify m t).pending_notify ∧
      (∀ w id, (subscribe_to m w id).pending_notify = m.pending_notify) ∧
      (∀ w id m', unsubscribe_from m w id = Except.ok m' →
        m'.pending_notify = m.pending_notify) ∧
      (∀ w, (connect m w).pending_notify = m.pending_notify) ∧
      (∀ w m', disconnect m w = Except.ok m' → m'.pending_notify = m.pending_notify) ∧
      (∃ m', waitPoll (notify m t) t = some m' ∧
        m'.pending_notify.count t + 1 = (notify m t).pending_notify.count t) ∧
      (∀ fails w r, sessionStep fails (notify m t) w t WakeEvent.changed = Except.ok r →
        r.fetchedContent = true) := by
  have hmem : t ∈ (notify m t).pending_notify := by simp [notify]
  refine ⟨hmem, ?_, ?_, fun w => rfl, ?_, ?_, ?_⟩
  · intro w id
    by_cases h : dictMem m.subscriptions id <;> simp [subscribe_to, h]
  · intro w id m' h
    by_cases h1 : dictMem m.subscriptions id
    · by_cases h2 : w ∈ dictGet m.subscriptions id
      · simp [unsubscribe_from, h1, h2] at h
        subst h
        rfl
      · simp [unsubscribe_from, h1, h2] at h
    · simp [unsubscribe_from, h1] at h
      subst h
      rfl
  · intro w m' h
    by_cases h1 : w ∈ m.active_connections
    · simp [disconnect, h1] at h
      subst h
      rfl
    · simp [disconnect, h1] at h
  · refine ⟨{ notify m t with
        pending_notify := (notify m t).pending_notify.erase t }, ?_, ?_⟩
    · simp [waitPoll, hmem]
    · have hpos : 0 < (notify m t).pending_notify.count t := List.count_pos_iff.mpr hmem
      simp only [List.count_erase_self]
      omega
  · intro fails w r h
    simp only [sessionStep] at h
    split at h
    · cases h
      rfl
    · cases h

/-- C10, witness: the theorem instantiated at the empty manager and
topic "T". -/
theorem C10_stale_mark_persists_witness :
    "T" ∈ (notify initialManager "T").pending_notify ∧
      (∀ w id, (subscribe_to initialManager w id).pending_notify
        = initialManager.pending_notify) ∧
      (∀ w id m', unsubscribe_from initialManager w id = Except.ok m' →
        m'.pending_notify = initialManager.pending_notify) ∧
      (∀ w, (connect initialManager w).pending_notify
        = initialManager.pending_notify) ∧
      (∀ w m', disconnect initialManager w = Except.ok m' →
        m'.pending_notify = initialManager.pending_notify) ∧
      (∃ m', waitPoll (notify initialManager "T") "T" = some m' ∧
        m'.pending_notify.count "T" + 1
          = (notify initialManager "T").pending_notify.count "T") ∧
      (∀ fails w r, sessionStep fails (notify initialManager "T") w "T"
          WakeEvent.changed = Except.ok r → r.fetchedContent = true) :=
  C10_stale_mark_persists initialManager "T"
